import Mathlib

set_option linter.unusedVariables false

/-!
Shallow embedding of `src/traffic_api/main.py` (Manchester traffic API).

Conventions of the embedding:
* Machine numerics (Python floats, Mongo numerics) are modelled as `ℚ`;
  a pandas `NaN` cell is modelled as `none : Option ℚ`.
* A BSON/`dict` field that may be missing or `null` is modelled by `DocField`:
  `absent` (key not present), `null` (key present with value `None`/BSON null),
  `val q` (numeric value).  Python's `doc.get(k)` collapses `absent` and `null`
  to `None`, which `DocField.cell` mirrors.
* UTC instants are modelled by the record `DT` of calendar components with the
  lexicographic order `DT.leb`; readings always carry a timestamp (data model).
* Mongo pipelines are given their list semantics (filter / stable sort /
  group / limit); Python `set` becomes a deduplicated list.
* HTTP error conditions are the inductive `ApiError`; `ApiError.status` is the
  status code the handler raises with (`notFound` = the 404 "No recent data"
  branch, `dataInsufficient` = the 404 "Not enough historical data" branch).
-/

/-- Calendar timestamp (UTC instant), mirroring Python `datetime` components. -/
structure DT where
  year : ℕ
  month : ℕ
  day : ℕ
  hour : ℕ
  minute : ℕ
  second : ℕ
deriving DecidableEq

/-- Lexicographic comparison of instants, mirroring `datetime` ordering. -/
def DT.leb (a b : DT) : Bool :=
  decide (a.year < b.year ∨ (a.year = b.year ∧
    (a.month < b.month ∨ (a.month = b.month ∧
      (a.day < b.day ∨ (a.day = b.day ∧
        (a.hour < b.hour ∨ (a.hour = b.hour ∧
          (a.minute < b.minute ∨ (a.minute = b.minute ∧
            a.second ≤ b.second))))))))))

/-- Gregorian leap-year test, as in Python's `calendar`/`datetime`. -/
def leapYear (y : ℕ) : Bool :=
  y % 4 = 0 && (y % 100 ≠ 0 || y % 400 = 0)

/-- Number of days in a month of a given year. -/
def daysInMonth (y m : ℕ) : ℕ :=
  if m = 2 then (if leapYear y then 29 else 28)
  else if m = 4 ∨ m = 6 ∨ m = 9 ∨ m = 11 then 30
  else 31

/-- Cumulative days before month `m` in a non-leap year (`m` is 1-based). -/
def cumDaysBeforeMonth (m : ℕ) : ℕ :=
  [0, 31, 59, 90, 120, 151, 181, 212, 243, 273, 304, 334].getD (m - 1) 0

/-- Proleptic-Gregorian ordinal of a date, as in Python `date.toordinal`. -/
def DT.toOrdinal (t : DT) : ℕ :=
  365 * (t.year - 1) + (t.year - 1) / 4 - (t.year - 1) / 100 + (t.year - 1) / 400
    + cumDaysBeforeMonth t.month
    + (if leapYear t.year && decide (3 ≤ t.month) then 1 else 0)
    + t.day

/-- Day of week as in Python `datetime.weekday()`: Monday = 0 … Sunday = 6. -/
def DT.weekday (t : DT) : ℕ := (t.toOrdinal + 6) % 7

/-- Successor day with month/year carry. -/
def DT.nextDay (t : DT) : DT :=
  if t.day + 1 ≤ daysInMonth t.year t.month then { t with day := t.day + 1 }
  else if t.month + 1 ≤ 12 then { t with day := 1, month := t.month + 1 }
  else { t with day := 1, month := 1, year := t.year + 1 }

/-- Add `n` days to an instant. -/
def DT.addDays : DT → ℕ → DT
  | t, 0 => t
  | t, Nat.succ n => DT.addDays t.nextDay n

/-- Add `k` minutes to an instant, mirroring `timedelta(minutes=k)`. -/
def DT.addMinutes (t : DT) (k : ℕ) : DT :=
  let mTot := t.minute + k
  let hTot := t.hour + mTot / 60
  DT.addDays { t with minute := mTot % 60, hour := hTot % 24 } (hTot / 24)

/-- Floor of a rational (computable, via floor division of `num` by `den`). -/
def ratFloor (q : ℚ) : ℤ := Int.fdiv q.num (q.den : ℤ)

/-- Round to the nearest integer, ties to even (Python/Mongo rounding). -/
def roundHalfEven (q : ℚ) : ℤ :=
  let f := ratFloor q
  let frac := q - (f : ℚ)
  if frac < 1 / 2 then f
  else if 1 / 2 < frac then f + 1
  else if f % 2 = 0 then f else f + 1

/-- Round to 2 decimal places (`round(x, 2)` / Mongo `$round: [x, 2]`). -/
def round2 (q : ℚ) : ℚ := ((roundHalfEven (q * 100) : ℚ)) / 100

/-- Round to 3 decimal places (`round(x, 3)`). -/
def round3 (q : ℚ) : ℚ := ((roundHalfEven (q * 1000) : ℚ)) / 1000

/-- A numeric document field: absent key, `null` value, or a numeric value. -/
inductive DocField where
  | absent : DocField
  | null : DocField
  | val : ℚ → DocField
deriving DecidableEq

/-- Value seen through `doc.get(k)` / a pandas cell: `none` for absent, `null`
or `NaN`; `some q` for a numeric value. -/
def DocField.cell : DocField → Option ℚ
  | .absent => none
  | .null => none
  | .val q => some q

/-- A stored traffic reading (one document in `traffic_readings`). -/
structure Doc where
  detid : Option String
  timestamp : DT
  speed : DocField
  flow : DocField
  speed_limit : DocField
  occupancy : DocField
deriving DecidableEq

/-- Sort key used by both pandas `sort_values('timestamp', ascending=False)`
and Mongo `{"$sort": {"timestamp": -1}}`: `a` precedes `b` when `a`'s
timestamp is the later one. -/
def docTsGe (a b : Doc) : Prop := DT.leb b.timestamp a.timestamp = true

instance : DecidableRel docTsGe :=
  fun a b => instDecidableEqBool (DT.leb b.timestamp a.timestamp) true

instance : IsTotal Doc docTsGe :=
  ⟨fun a b => by
    unfold docTsGe
    simp only [DT.leb, decide_eq_true_eq]
    omega⟩

instance : IsTrans Doc docTsGe :=
  ⟨fun a b c h1 h2 => by
    unfold docTsGe at *
    simp only [DT.leb, decide_eq_true_eq] at *
    omega⟩

/-- Readings sorted most-recent first. -/
def sortDocsDesc (l : List Doc) : List Doc := List.insertionSort docTsGe l

/-- `prepare_features_for_sensor` (main.py:90-123).

The input dicts become one `DataFrame`; a column such as `speed` exists in
that frame iff SOME reading carries the key (pandas fills the other rows with
`NaN`).  The code tests `'speed' in latest_readings.iloc[k]`, i.e. column
existence, and only falls back to the literal defaults when the column is
missing from every reading; a `NaN` cell flows through as `NaN` (`none`).
Returns `none` for the empty frame (`if not sensor_data_list`) and when fewer
than 3 readings exist; otherwise the ordered 10-column single-row frame. -/
def prepare_features_for_sensor (sensor_data_list : List Doc) (current_dt : DT) :
    Option (List (String × Option ℚ)) :=
  if sensor_data_list.isEmpty then none
  else
    match (sortDocsDesc sensor_data_list).take 3 with
    | r0 :: r1 :: r2 :: _ =>
      some [("hour_of_day", some (current_dt.hour : ℚ)),
            ("day_of_week", some (current_dt.weekday : ℚ)),
            ("is_weekend", some (if 5 ≤ current_dt.weekday then (1 : ℚ) else 0)),
            ("speed_lag1",
              if sensor_data_list.any fun d => decide (d.speed ≠ DocField.absent)
              then r0.speed.cell else some 0),
            ("speed_lag2",
              if sensor_data_list.any fun d => decide (d.speed ≠ DocField.absent)
              then r1.speed.cell else some 0),
            ("speed_lag3",
              if sensor_data_list.any fun d => decide (d.speed ≠ DocField.absent)
              then r2.speed.cell else some 0),
            ("flow_lag1",
              if sensor_data_list.any fun d => decide (d.flow ≠ DocField.absent)
              then r0.flow.cell else some 0),
            ("speed_limit",
              if sensor_data_list.any fun d => decide (d.speed_limit ≠ DocField.absent)
              then r0.speed_limit.cell else some 50),
            ("occupancy",
              if sensor_data_list.any fun d => decide (d.occupancy ≠ DocField.absent)
              then r0.occupancy.cell else some 0),
            ("flow",
              if sensor_data_list.any fun d => decide (d.flow ≠ DocField.absent)
              then r0.flow.cell else some 0)]
    | _ => none

/-- Error taxonomy of the handlers (spec §7). -/
inductive ApiError where
  | unavailable : ApiError
  | notFound : ApiError
  | dataInsufficient : ApiError
  | invalidInput : ApiError
  | internal : ApiError
deriving DecidableEq

/-- HTTP status each condition is surfaced with. -/
def ApiError.status : ApiError → ℕ
  | .unavailable => 503
  | .notFound => 404
  | .dataInsufficient => 404
  | .invalidInput => 400
  | .internal => 500

/-- `HistoricalSpeedPoint` response item. -/
structure HistPoint where
  timestamp : DT
  speed : Option ℚ
deriving DecidableEq

/-- Ascending timestamp order on history points (`key=lambda x: x.timestamp`
and Mongo `{"$sort": {"timestamp": 1}}`). -/
def histPointLe (a b : HistPoint) : Prop := DT.leb a.timestamp b.timestamp = true

instance : DecidableRel histPointLe :=
  fun a b => instDecidableEqBool (DT.leb a.timestamp b.timestamp) true

instance : IsTotal HistPoint histPointLe :=
  ⟨fun a b => by
    unfold histPointLe
    simp only [DT.leb, decide_eq_true_eq]
    omega⟩

instance : IsTrans HistPoint histPointLe :=
  ⟨fun a b c h1 h2 => by
    unfold histPointLe at *
    simp only [DT.leb, decide_eq_true_eq] at *
    omega⟩

/-- `SensorPredictionResponse`. -/
structure SensorPredictionResponse where
  detid : String
  predicted_speed_for_next_interval : ℚ
  prediction_target_time : DT
  historical_speeds : List HistPoint
deriving DecidableEq

/-- All readings of one sensor (`find({"detid": detid_val})`). -/
def findDetid (store : List Doc) (detid_val : String) : List Doc :=
  store.filter fun d => decide (d.detid = some detid_val)

/-- `get_sensor_prediction` (main.py:240-292).  The opaque regression model is
the parameter `predict`; the store is the list of documents.  Readings always
carry a timestamp in this model, so the `not ... .get("timestamp")` branch of
the 404 check never fires. -/
def get_sensor_prediction (predict : List (String × Option ℚ) → ℚ)
    (store : List Doc) (detid_val : String) :
    Except ApiError SensorPredictionResponse :=
  match (sortDocsDesc (findDetid store detid_val)).head? with
  | none => Except.error ApiError.notFound
  | some latest_sensor_doc =>
    let prediction_target_time := latest_sensor_doc.timestamp.addMinutes 15
    let historical_data_list := (sortDocsDesc (findDetid store detid_val)).take 5
    if historical_data_list.length < 3 then Except.error ApiError.dataInsufficient
    else
      match prepare_features_for_sensor historical_data_list prediction_target_time with
      | none => Except.error ApiError.internal
      | some features_df =>
        Except.ok
          { detid := detid_val
            predicted_speed_for_next_interval := round2 (predict features_df)
            prediction_target_time := prediction_target_time
            historical_speeds :=
              List.insertionSort histPointLe
                (historical_data_list.filterMap fun d =>
                  match d.speed.cell with
                  | some q => some ⟨d.timestamp, some q⟩
                  | none => none) }

/-- 10-minute bucket key of the history aggregation: the `_id` of the
`$group` stage (the `detid` component of that `_id` is constant, since the
field was dropped by the preceding `$project`). -/
structure BKey where
  year : ℕ
  month : ℕ
  day : ℕ
  hour : ℕ
  minute_interval : ℕ
deriving DecidableEq

/-- Bucket key of a timestamp: `minute - minute % 10` as in the pipeline. -/
def bucketKey (t : DT) : BKey :=
  ⟨t.year, t.month, t.day, t.hour, t.minute - t.minute % 10⟩

/-- `$dateFromParts` reconstruction: the start instant of a bucket. -/
def bucketStart (k : BKey) : DT :=
  ⟨k.year, k.month, k.day, k.hour, k.minute_interval, 0⟩

/-- Hardcoded start of the queried range (`datetime(2017, 9, 1, 0, 0, 0)`). -/
def histStart : DT := ⟨2017, 9, 1, 0, 0, 0⟩

/-- Hardcoded end of the queried range (`datetime(2017, 9, 30, 23, 59, 59)`). -/
def histEnd : DT := ⟨2017, 9, 30, 23, 59, 59⟩

/-- `$match` stage of the history pipeline: same sensor, inside the hardcoded
range, and `speed ≠ null` (which in Mongo also excludes a missing field). -/
def historyMatch (detid_val : String) (d : Doc) : Bool :=
  decide (d.detid = some detid_val) &&
    DT.leb histStart d.timestamp && DT.leb d.timestamp histEnd &&
    (match d.speed with | DocField.val _ => true | _ => false)

/-- Numeric speed of a matched reading (total; matched readings always carry
`DocField.val`). -/
def speedOf (d : Doc) : ℚ :=
  match d.speed with
  | DocField.val q => q
  | _ => 0

/-- Readings that pass the `$match` stage. -/
def matchedDocs (store : List Doc) (detid_val : String) : List Doc :=
  store.filter (historyMatch detid_val)

/-- Members of one 10-minute bucket. -/
def bucketDocs (store : List Doc) (detid_val : String) (k : BKey) : List Doc :=
  (matchedDocs store detid_val).filter fun d => decide (bucketKey d.timestamp = k)

/-- Distinct bucket keys produced by the `$group` stage. -/
def bucketKeysOf (store : List Doc) (detid_val : String) : List BKey :=
  ((matchedDocs store detid_val).map fun d => bucketKey d.timestamp).dedup

/-- `$avg` of the speeds of a bucket: their arithmetic mean. -/
def bucketMean (ds : List Doc) : ℚ := (ds.map speedOf).sum / (ds.length : ℚ)

/-- `SensorHistoryResponse`. -/
structure SensorHistoryResponse where
  detid : String
  readings : List HistPoint
deriving DecidableEq

/-- `get_sensor_historical_data` (main.py:296-400): the aggregation pipeline
match → group by 10-minute bucket → average+round → sort ascending → limit
750.  The `hours` query parameter is accepted (validated to `1 ≤ hours ≤
365*24*10` by the framework) but never read: the range is pinned to
September 2017. -/
def get_sensor_historical_data (store : List Doc) (detid_val : String) (hours : ℕ) :
    SensorHistoryResponse :=
  ⟨detid_val,
    (List.insertionSort histPointLe
      ((bucketKeysOf store detid_val).map fun k =>
        ⟨bucketStart k, some (round2 (bucketMean (bucketDocs store detid_val k)))⟩)).take 750⟩

/-- `RouteTrafficAnalysisResponse`. -/
structure RouteTrafficAnalysisResponse where
  condition : String
  average_congestion_ratio : Option ℚ
  sensors_considered : ℕ
  sensors_with_data : ℕ
deriving DecidableEq

/-- Route point downsampling (main.py:429-437): with at most 10 decoded
points keep them all, otherwise take every `len // 10`-th point
(`range(0, len, step)`) and additionally append the final point when the
stride misses it (`len-1 not in range(0, len, step)`). -/
def samplePoints (pts : List (ℚ × ℚ)) : List (ℚ × ℚ) :=
  if pts.length ≤ 10 then pts
  else if (pts.length - 1) % (pts.length / 10) = 0 then
    (List.range' 0 ((pts.length + pts.length / 10 - 1) / (pts.length / 10))
      (pts.length / 10)).filterMap fun i => pts.get? i
  else
    ((List.range' 0 ((pts.length + pts.length / 10 - 1) / (pts.length / 10))
      (pts.length / 10)).filterMap fun i => pts.get? i) ++ pts.getLast?.toList

/-- Python truthiness of `doc.get("detid")`: a non-empty string. -/
def detidTruthy : Option String → Option String
  | some s => if s = "" then none else some s
  | none => none

/-- The set of unique nearby sensor ids (`nearby_sensor_detids`): every detid
reported by the per-sample-point `$geoNear` pipelines, deduplicated.  The
spatial engine itself is out of scope; it is the oracle `geoNear`. -/
def routeDetids (geoNear : ℚ × ℚ → List Doc) (sample : List (ℚ × ℚ)) : List String :=
  (((sample.map geoNear).flatten).filterMap fun d => detidTruthy d.detid).dedup

/-- `$match: {"detid": {"$in": list(nearby_sensor_detids)}}`. -/
def routeMatchedDocs (store : List Doc) (detids : List String) : List Doc :=
  store.filter fun d =>
    match d.detid with
    | some s => decide (s ∈ detids)
    | none => false

/-- Keep the first document per detid (the `$group`/`$first` latest-wins
stage applied to a descending-sorted list); `seen` are already-emitted keys. -/
def dedupByDetidAux : List Doc → List (Option String) → List Doc
  | [], _ => []
  | d :: rest, seen =>
    if d.detid ∈ seen then dedupByDetidAux rest seen
    else d :: dedupByDetidAux rest (d.detid :: seen)

/-- Latest document per detid: sort by timestamp descending, keep the first
document of each detid (main.py:480-490). -/
def latestPerDetid (docs : List Doc) : List Doc :=
  dedupByDetidAux (List.insertionSort docTsGe docs) []

/-- The guard of the ratio loop (main.py:496): a numeric speed and a numeric,
positive speed limit. -/
def qualifies (d : Doc) : Bool :=
  match d.speed.cell, d.speed_limit.cell with
  | some _, some lim => decide (0 < lim)
  | some _, none => false
  | none, _ => false

/-- The ratio loop (main.py:492-499): accumulate `speed / speed_limit` and
count the contributing sensors. -/
def collectRatios : List Doc → List ℚ × ℕ
  | [] => ([], 0)
  | d :: rest =>
    match d.speed.cell, d.speed_limit.cell with
    | some sp, some lim =>
      if 0 < lim then
        (sp / lim :: (collectRatios rest).1, (collectRatios rest).2 + 1)
      else collectRatios rest
    | some _, none => collectRatios rest
    | none, _ => collectRatios rest

/-- Mean-ratio summary and classification (main.py:509-524): mean of the
ratios, thresholds `>= 0.8` → Light, `>= 0.5` → Moderate, else Heavy; the
reported ratio is rounded to 3 decimals. -/
def summarize_congestion (considered : ℕ) (ratios : List ℚ) (withData : ℕ) :
    RouteTrafficAnalysisResponse :=
  let average_ratio := ratios.sum / (ratios.length : ℚ)
  ⟨if 8 / 10 ≤ average_ratio then "Light"
    else if 5 / 10 ≤ average_ratio then "Moderate"
    else "Heavy",
   some (round3 average_ratio), considered, withData⟩

/-- One run of the route-analysis handler, instrumented with the spatial
queries that were issued, the latest-per-sensor documents that were fetched
and the congestion ratios that were accumulated. -/
structure RouteRun where
  result : Except ApiError RouteTrafficAnalysisResponse
  spatialQueries : List (ℚ × ℚ)
  latestDocs : List Doc
  ratios : List ℚ

/-- Tail of the route handler once the latest documents are fetched
(main.py:492-524). -/
def routeFinish (detids : List String) (final : List Doc) (sample : List (ℚ × ℚ)) :
    RouteRun :=
  if (collectRatios final).1.isEmpty then
    ⟨Except.ok ⟨"Unknown - No speed data from sensors near route", none, detids.length, 0⟩,
      sample, final, (collectRatios final).1⟩
  else
    ⟨Except.ok (summarize_congestion detids.length (collectRatios final).1 (collectRatios final).2),
      sample, final, (collectRatios final).1⟩

/-- Middle of the route handler: spatial lookups over the sample points, the
empty-set early return (main.py:477-478), then the latest-per-sensor fetch. -/
def routeAnalyze (geoNear : ℚ × ℚ → List Doc) (store : List Doc)
    (sample : List (ℚ × ℚ)) : RouteRun :=
  if (routeDetids geoNear sample).isEmpty then
    ⟨Except.ok ⟨"Unknown - No sensors found near route", none, 0, 0⟩, sample, [], []⟩
  else
    routeFinish (routeDetids geoNear sample)
      (latestPerDetid (routeMatchedDocs store (routeDetids geoNear sample))) sample

/-- `get_route_traffic_analysis` (main.py:409-532).  The polyline decoder is
external; `decoded` is its output, a list of `(lat, lon)` pairs.  An empty
decoding is rejected with 400 before any spatial query is issued; otherwise
the points are converted to `(lon, lat)` and downsampled. -/
def get_route_traffic_analysis (geoNear : ℚ × ℚ → List Doc) (store : List Doc)
    (decoded : List (ℚ × ℚ)) : RouteRun :=
  if decoded.isEmpty then ⟨Except.error ApiError.invalidInput, [], [], []⟩
  else routeAnalyze geoNear store (samplePoints (decoded.map fun p => (p.2, p.1)))

/-- Concrete three-reading history used by witnesses. -/
def exHist : List Doc :=
  [⟨some "S", ⟨2017, 9, 3, 8, 0, 0⟩, DocField.val 30, DocField.val 12, DocField.val 40, DocField.val 5⟩,
   ⟨some "S", ⟨2017, 9, 2, 8, 0, 0⟩, DocField.val 20, DocField.val 10, DocField.val 40, DocField.val 4⟩,
   ⟨some "S", ⟨2017, 9, 1, 8, 0, 0⟩, DocField.val 10, DocField.val 8, DocField.val 40, DocField.val 3⟩]

/-- History whose most recent reading lacks the `speed` key while older
readings carry it (so the `speed` column exists with a `NaN` first cell). -/
def exHistNoSpeed : List Doc :=
  [⟨some "S", ⟨2017, 9, 3, 8, 0, 0⟩, DocField.absent, DocField.val 12, DocField.val 40, DocField.val 5⟩,
   ⟨some "S", ⟨2017, 9, 2, 8, 0, 0⟩, DocField.val 20, DocField.val 10, DocField.val 40, DocField.val 4⟩,
   ⟨some "S", ⟨2017, 9, 1, 8, 0, 0⟩, DocField.val 10, DocField.val 8, DocField.val 40, DocField.val 3⟩]

/-- Reference instant used by witnesses (a Tuesday). -/
def exDT : DT := ⟨2017, 9, 5, 10, 30, 0⟩

/-- Two-reading store: not enough history for a prediction. -/
def exShortStore : List Doc :=
  [⟨some "P", ⟨2017, 9, 3, 8, 0, 0⟩, DocField.val 30, DocField.absent, DocField.absent, DocField.absent⟩,
   ⟨some "P", ⟨2017, 9, 2, 8, 0, 0⟩, DocField.val 20, DocField.absent, DocField.absent, DocField.absent⟩]

/-- Store for the history witnesses: two readings in the same 10-minute
bucket of September 2017. -/
def exHistoryStore : List Doc :=
  [⟨some "S", ⟨2017, 9, 5, 10, 23, 0⟩, DocField.val 10, DocField.absent, DocField.absent, DocField.absent⟩,
   ⟨some "S", ⟨2017, 9, 5, 10, 27, 0⟩, DocField.val 20, DocField.absent, DocField.absent, DocField.absent⟩]

/-- A 25-point route polyline (decoded), for the sampling witnesses. -/
def pts25 : List (ℚ × ℚ) := (List.range 25).map fun i => ((i : ℚ), 0)

/-- Store and oracle for the route witnesses: one sensor `"A"` at half its
speed limit. -/
def exRouteStore : List Doc :=
  [⟨some "A", ⟨2017, 9, 5, 10, 0, 0⟩, DocField.val 30, DocField.absent, DocField.val 60, DocField.absent⟩]

/-- Spatial oracle for the route witnesses: every point is near sensor `"A"`. -/
def exGeoNear : ℚ × ℚ → List Doc := fun _ => exRouteStore

/-- A list of length at least 3 starts with three elements. -/
theorem exists_cons3_of_three_le {α : Type _} {l : List α} (h : 3 ≤ l.length) :
    ∃ a b c t, l = a :: b :: c :: t := by
  rcases l with _ | ⟨a, l⟩
  · simp at h
  rcases l with _ | ⟨b, l⟩
  · simp at h
  rcases l with _ | ⟨c, l⟩
  · simp at h
  exact ⟨a, b, c, l, rfl⟩

/-- C1: for every sensor-reading history with at least 3 entries and every
reference instant, `prepare_features_for_sensor` succeeds and the resulting
row has exactly the 10 feature columns, in the fixed order
hour_of_day, day_of_week, is_weekend, speed_lag1, speed_lag2, speed_lag3,
flow_lag1, speed_limit, occupancy, flow. -/
theorem prepare_features_ten_fields (sensor_data_list : List Doc) (current_dt : DT)
    (h : 3 ≤ sensor_data_list.length) :
    ∃ fv, prepare_features_for_sensor sensor_data_list current_dt = some fv ∧
      fv.map Prod.fst =
        ["hour_of_day", "day_of_week", "is_weekend", "speed_lag1", "speed_lag2",
         "speed_lag3", "flow_lag1", "speed_limit", "occupancy", "flow"] ∧
      fv.length = 10 := by
  have hne : sensor_data_list.isEmpty = false := by
    rcases sensor_data_list with _ | ⟨a, l⟩
    · simp at h
    · rfl
  have hlen : 3 ≤ (sortDocsDesc sensor_data_list).length := by
    rw [sortDocsDesc, List.length_insertionSort]
    exact h
  obtain ⟨a, b, c, t, hsort⟩ := exists_cons3_of_three_le hlen
  have htake : (sortDocsDesc sensor_data_list).take 3 = [a, b, c] := by
    rw [hsort]
    rfl
  rw [prepare_features_for_sensor, hne, htake]
  exact ⟨_, rfl, rfl, rfl⟩

/-- Witness for C1 at a concrete three-reading history. -/
theorem prepare_features_ten_fields_witness :
    3 ≤ exHist.length ∧
    ∃ fv, prepare_features_for_sensor exHist exDT = some fv ∧
      fv.map Prod.fst =
        ["hour_of_day", "day_of_week", "is_weekend", "speed_lag1", "speed_lag2",
         "speed_lag3", "flow_lag1", "speed_limit", "occupancy", "flow"] ∧
      fv.length = 10 :=
  ⟨by decide, prepare_features_ten_fields exHist exDT (by decide)⟩

/-- C3 counterexample: in a three-reading history whose most recent reading
lacks the `speed` key while an older reading carries it, the built
`speed_lag1` feature is the missing value `NaN` (`none`), not the claimed
default `0`. -/
theorem speed_lag1_nan_counterexample :
    (prepare_features_for_sensor exHistNoSpeed exDT).bind
        (fun fv => fv.lookup "speed_lag1") = some none ∧
    some (none : Option ℚ) ≠ some (some (0 : ℚ)) := by
  constructor
  · decide
  · simp

/-- C3 amended: with at least 3 readings, `speed_lag1/2/3` and `flow_lag1`
are the pandas cells of the 1st/2nd/3rd most recent reading, and
`speed_limit`, `occupancy`, `flow` the cells of the most recent one; the
defaults 0/0/0/0/50/0/0 apply only when the corresponding column is missing
from every reading of the history, while a reading that merely lacks (or
nulls) a field another reading carries contributes `NaN` (`none`). -/
theorem feature_lag_column_semantics (sensor_data_list : List Doc) (current_dt : DT)
    (r0 r1 r2 : Doc) (rest : List Doc)
    (hsort : sortDocsDesc sensor_data_list = r0 :: r1 :: r2 :: rest) :
    prepare_features_for_sensor sensor_data_list current_dt =
      some [("hour_of_day", some (current_dt.hour : ℚ)),
            ("day_of_week", some (current_dt.weekday : ℚ)),
            ("is_weekend", some (if 5 ≤ current_dt.weekday then (1 : ℚ) else 0)),
            ("speed_lag1",
              if sensor_data_list.any fun d => decide (d.speed ≠ DocField.absent)
              then r0.speed.cell else some 0),
            ("speed_lag2",
              if sensor_data_list.any fun d => decide (d.speed ≠ DocField.absent)
              then r1.speed.cell else some 0),
            ("speed_lag3",
              if sensor_data_list.any fun d => decide (d.speed ≠ DocField.absent)
              then r2.speed.cell else some 0),
            ("flow_lag1",
              if sensor_data_list.any fun d => decide (d.flow ≠ DocField.absent)
              then r0.flow.cell else some 0),
            ("speed_limit",
              if sensor_data_list.any fun d => decide (d.speed_limit ≠ DocField.absent)
              then r0.speed_limit.cell else some 50),
            ("occupancy",
              if sensor_data_list.any fun d => decide (d.occupancy ≠ DocField.absent)
              then r0.occupancy.cell else some 0),
            ("flow",
              if sensor_data_list.any fun d => decide (d.flow ≠ DocField.absent)
              then r0.flow.cell else some 0)] := by
  have hne : sensor_data_list.isEmpty = false := by
    rcases sensor_data_list with _ | ⟨a, l⟩
    · exact absurd (congrArg List.length hsort) (by simp [sortDocsDesc])
    · rfl
  have htake : (sortDocsDesc sensor_data_list).take 3 = [r0, r1, r2] := by
    rw [hsort]
    rfl
  rw [prepare_features_for_sensor, hne, htake]
  rfl

/-- Witness for the amended C3: the concrete history `exHistNoSpeed`, whose
sorted order is itself, yields `NaN` for `speed_lag1` and the cells of the
most recent reading elsewhere. -/
theorem feature_lag_column_semantics_witness :
    sortDocsDesc exHistNoSpeed =
      ⟨some "S", ⟨2017, 9, 3, 8, 0, 0⟩, DocField.absent, DocField.val 12, DocField.val 40, DocField.val 5⟩ ::
      ⟨some "S", ⟨2017, 9, 2, 8, 0, 0⟩, DocField.val 20, DocField.val 10, DocField.val 40, DocField.val 4⟩ ::
      ⟨some "S", ⟨2017, 9, 1, 8, 0, 0⟩, DocField.val 10, DocField.val 8, DocField.val 40, DocField.val 3⟩ :: [] ∧
    prepare_features_for_sensor exHistNoSpeed exDT =
      some [("hour_of_day", some ((⟨2017, 9, 5, 10, 30, 0⟩ : DT).hour : ℚ)),
            ("day_of_week", some ((⟨2017, 9, 5, 10, 30, 0⟩ : DT).weekday : ℚ)),
            ("is_weekend", some (if 5 ≤ (⟨2017, 9, 5, 10, 30, 0⟩ : DT).weekday then (1 : ℚ) else 0)),
            ("speed_lag1", none), ("speed_lag2", some 20), ("speed_lag3", some 10),
            ("flow_lag1", some 12), ("speed_limit", some 40), ("occupancy", some 5),
            ("flow", some 12)] := by
  refine ⟨by decide, ?_⟩
  have h := feature_lag_column_semantics exHistNoSpeed exDT
    ⟨some "S", ⟨2017, 9, 3, 8, 0, 0⟩, DocField.absent, DocField.val 12, DocField.val 40, DocField.val 5⟩
    ⟨some "S", ⟨2017, 9, 2, 8, 0, 0⟩, DocField.val 20, DocField.val 10, DocField.val 40, DocField.val 4⟩
    ⟨some "S", ⟨2017, 9, 1, 8, 0, 0⟩, DocField.val 10, DocField.val 8, DocField.val 40, DocField.val 3⟩
    [] (by decide)
  rw [h]
  decide

/-- C6: for a non-empty ratio list the reported average congestion ratio is
the arithmetic mean rounded to 3 decimals, and the condition is "Light" when
the (unrounded) mean is at least 0.8, "Moderate" when it is at least 0.5 and
below 0.8, and "Heavy" below 0.5 — so exactly 0.8 classifies as "Light" and
exactly 0.5 as "Moderate". -/
theorem congestion_mean_and_classification (considered : ℕ) (ratios : List ℚ)
    (withData : ℕ) (h : ratios ≠ []) :
    (summarize_congestion considered ratios withData).average_congestion_ratio =
        some (round3 (ratios.sum / (ratios.length : ℚ))) ∧
    (8 / 10 ≤ ratios.sum / (ratios.length : ℚ) →
        (summarize_congestion considered ratios withData).condition = "Light") ∧
    (5 / 10 ≤ ratios.sum / (ratios.length : ℚ) ∧ ratios.sum / (ratios.length : ℚ) < 8 / 10 →
        (summarize_congestion considered ratios withData).condition = "Moderate") ∧
    (ratios.sum / (ratios.length : ℚ) < 5 / 10 →
        (summarize_congestion considered ratios withData).condition = "Heavy") := by
  refine ⟨rfl, ?_, ?_, ?_⟩
  · intro h8
    simp only [summarize_congestion]
    rw [if_pos h8]
  · rintro ⟨h5, h8⟩
    simp only [summarize_congestion]
    rw [if_neg (not_le.2 h8), if_pos h5]
  · intro h5
    simp only [summarize_congestion]
    rw [if_neg, if_neg (not_le.2 h5)]
    exact not_le.2 (lt_trans h5 (by norm_num))

/-- Witness for C6 at the single ratio 4/5 = 0.8: mean exactly 0.8, reported
as 0.8 and classified "Light". -/
theorem congestion_mean_and_classification_witness :
    ([(4 : ℚ) / 5] ≠ ([] : List ℚ)) ∧
    ((summarize_congestion 1 [(4 : ℚ) / 5] 1).average_congestion_ratio =
        some (round3 (List.sum [(4 : ℚ) / 5] / (List.length [(4 : ℚ) / 5] : ℚ))) ∧
      (8 / 10 ≤ List.sum [(4 : ℚ) / 5] / (List.length [(4 : ℚ) / 5] : ℚ) →
        (summarize_congestion 1 [(4 : ℚ) / 5] 1).condition = "Light") ∧
      (5 / 10 ≤ List.sum [(4 : ℚ) / 5] / (List.length [(4 : ℚ) / 5] : ℚ) ∧
          List.sum [(4 : ℚ) / 5] / (List.length [(4 : ℚ) / 5] : ℚ) < 8 / 10 →
        (summarize_congestion 1 [(4 : ℚ) / 5] 1).condition = "Moderate") ∧
      (List.sum [(4 : ℚ) / 5] / (List.length [(4 : ℚ) / 5] : ℚ) < 5 / 10 →
        (summarize_congestion 1 [(4 : ℚ) / 5] 1).condition = "Heavy")) :=
  ⟨by simp, congestion_mean_and_classification 1 [(4 : ℚ) / 5] 1 (by simp)⟩

/-- C8: the `hours` query parameter of the sensor-history endpoint has no
effect: any two valid values (the framework accepts 1 ≤ hours ≤ 365*24*10)
produce identical responses over the same store, because the queried range is
pinned to September 2017. -/
theorem hours_parameter_inert (store : List Doc) (detid_val : String) (h1 h2 : ℕ)
    (hv1 : 1 ≤ h1 ∧ h1 ≤ 365 * 24 * 10) (hv2 : 1 ≤ h2 ∧ h2 ≤ 365 * 24 * 10) :
    get_sensor_historical_data store detid_val h1 =
      get_sensor_historical_data store detid_val h2 := rfl

/-- Witness for C8: hours 1 and 24 give the same response on a concrete
store. -/
theorem hours_parameter_inert_witness :
    (1 ≤ 1 ∧ 1 ≤ 365 * 24 * 10) ∧ (1 ≤ 24 ∧ 24 ≤ 365 * 24 * 10) ∧
    get_sensor_historical_data exHistoryStore "S" 1 =
      get_sensor_historical_data exHistoryStore "S" 24 :=
  ⟨by decide, by decide,
    hours_parameter_inert exHistoryStore "S" 1 24 (by decide) (by decide)⟩

/-- C9: when polyline decoding yields zero route points the route-analysis
handler fails with `InvalidInput` (HTTP 400) and issues no spatial query. -/
theorem empty_decoding_invalid_input (geoNear : ℚ × ℚ → List Doc) (store : List Doc) :
    (get_route_traffic_analysis geoNear store []).result =
        Except.error ApiError.invalidInput ∧
    ApiError.status ApiError.invalidInput = 400 ∧
    (get_route_traffic_analysis geoNear store []).spatialQueries = [] :=
  ⟨rfl, rfl, rfl⟩

/-- C2 counterexample: for a sensor with zero readings the prediction
endpoint fails with the `NotFound` condition (the 404 "No recent data"
branch), not with `DataInsufficient` as claimed. -/
theorem no_readings_gives_notFound :
    get_sensor_prediction (fun _ => 0) [] "S1" = Except.error ApiError.notFound ∧
    ApiError.notFound ≠ ApiError.dataInsufficient :=
  ⟨rfl, by decide⟩

/-- C2 amended: for every sensor whose history has fewer than 3 readings,
feature-building returns the empty result for every reference instant, and
the prediction endpoint fails with HTTP 404 — with the `DataInsufficient`
condition when the sensor has at least one reading, and with the `NotFound`
condition ("No recent data") when it has none. -/
theorem prediction_under_three_readings_404 (predict : List (String × Option ℚ) → ℚ)
    (store : List Doc) (detid_val : String)
    (h : (findDetid store detid_val).length < 3) :
    (∀ current_dt, prepare_features_for_sensor (findDetid store detid_val) current_dt = none) ∧
    ∃ e, get_sensor_prediction predict store detid_val = Except.error e ∧
      ApiError.status e = 404 ∧
      (0 < (findDetid store detid_val).length → e = ApiError.dataInsufficient) ∧
      ((findDetid store detid_val).length = 0 → e = ApiError.notFound) := by
  constructor
  · intro current_dt
    rcases hE : findDetid store detid_val with _ | ⟨a, l⟩
    · rw [prepare_features_for_sensor]
      rfl
    · rw [hE] at h
      have hlen : (sortDocsDesc (a :: l)).length < 3 := by
        rw [sortDocsDesc, List.length_insertionSort]
        exact h
      rw [prepare_features_for_sensor]
      rcases hm : (sortDocsDesc (a :: l)).take 3 with _ | ⟨x, _ | ⟨y, _ | ⟨z, t⟩⟩⟩
      · rfl
      · rfl
      · rfl
      · exfalso
        have hc := congrArg List.length hm
        rw [List.length_take] at hc
        simp only [List.length_cons] at hc
        omega
  · rcases hE : findDetid store detid_val with _ | ⟨a, l⟩
    · refine ⟨ApiError.notFound, ?_, rfl, ?_, fun _ => rfl⟩
      · rw [get_sensor_prediction, hE]
        rfl
      · intro h0
        simp at h0
    · rw [hE] at h
      have hlt : ((sortDocsDesc (a :: l)).take 5).length < 3 := by
        rw [List.length_take, sortDocsDesc, List.length_insertionSort]
        simp only [List.length_cons] at h ⊢
        omega
      refine ⟨ApiError.dataInsufficient, ?_, rfl, fun _ => rfl, ?_⟩
      · rw [get_sensor_prediction, hE]
        rcases hm : sortDocsDesc (a :: l) with _ | ⟨x, xs⟩
        · exfalso
          have hc := congrArg List.length hm
          rw [sortDocsDesc, List.length_insertionSort] at hc
          simp at hc
        · rw [hm] at hlt
          simp only [List.head?]
          rw [if_pos hlt]
      · intro h0
        simp at h0

/-- Witness for the amended C2 at a two-reading store. -/
theorem prediction_under_three_readings_404_witness :
    (findDetid exShortStore "P").length < 3 ∧
    ((∀ current_dt, prepare_features_for_sensor (findDetid exShortStore "P") current_dt = none) ∧
      ∃ e, get_sensor_prediction (fun _ => 0) exShortStore "P" = Except.error e ∧
        ApiError.status e = 404 ∧
        (0 < (findDetid exShortStore "P").length → e = ApiError.dataInsufficient) ∧
        ((findDetid exShortStore "P").length = 0 → e = ApiError.notFound)) :=
  ⟨by decide, prediction_under_three_readings_404 (fun _ => 0) exShortStore "P" (by decide)⟩

/-- C5: the aggregated interval buckets returned by the sensor-history
endpoint are sorted ascending by timestamp and number at most 750. -/
theorem history_sorted_and_capped (store : List Doc) (detid_val : String) (hours : ℕ) :
    List.Sorted histPointLe (get_sensor_historical_data store detid_val hours).readings ∧
    (get_sensor_historical_data store detid_val hours).readings.length ≤ 750 := by
  constructor
  · exact List.Pairwise.sublist (List.take_sublist 750 _)
      (List.sorted_insertionSort histPointLe
        ((bucketKeysOf store detid_val).map fun k =>
          ⟨bucketStart k, some (round2 (bucketMean (bucketDocs store detid_val k)))⟩))
  · exact List.length_take_le 750 _

/-- C4: every bucket returned by the sensor-history endpoint corresponds to a
10-minute group key (year, month, day, hour, minute − minute % 10 =
⌊minute/10⌋·10) of the matched readings; its speed is the arithmetic mean of
the speeds of the readings of that bucket rounded to 2 decimals, and its
timestamp is the bucket's floor-to-10-minutes start instant (seconds zeroed),
not a mean or first raw timestamp; only readings with an actual numeric
(non-null) speed enter the aggregation. -/
theorem history_bucket_contents (store : List Doc) (detid_val : String) (hours : ℕ)
    (p : HistPoint) (hp : p ∈ (get_sensor_historical_data store detid_val hours).readings) :
    (∃ k ∈ bucketKeysOf store detid_val,
        p.timestamp = bucketStart k ∧
        p.speed = some (round2 (bucketMean (bucketDocs store detid_val k)))) ∧
    (∀ t : DT, (bucketKey t).minute_interval = t.minute / 10 * 10) ∧
    (∀ d ∈ matchedDocs store detid_val, ∃ q, d.speed = DocField.val q) := by
  refine ⟨?_, ?_, ?_⟩
  · rw [get_sensor_historical_data] at hp
    have h1 : p ∈ List.insertionSort histPointLe
        ((bucketKeysOf store detid_val).map fun k =>
          (⟨bucketStart k, some (round2 (bucketMean (bucketDocs store detid_val k)))⟩ :
            HistPoint)) := List.mem_of_mem_take hp
    have h2 : p ∈ (bucketKeysOf store detid_val).map fun k =>
        (⟨bucketStart k, some (round2 (bucketMean (bucketDocs store detid_val k)))⟩ :
          HistPoint) := by
      simpa using h1
    obtain ⟨k, hk, hkp⟩ := List.mem_map.1 h2
    exact ⟨k, hk, by rw [← hkp], by rw [← hkp]⟩
  · intro t
    simp only [bucketKey]
    omega
  · intro d hd
    have hmatch := (List.mem_filter.1 hd).2
    simp only [historyMatch, Bool.and_eq_true] at hmatch
    rcases hdv : d.speed with _ | _ | q
    · rw [hdv] at hmatch
      simp at hmatch
    · rw [hdv] at hmatch
      simp at hmatch
    · exact ⟨q, rfl⟩

/-- Witness for C4: two readings at 10:23 and 10:27 on 2017-09-05 with
speeds 10 and 20 produce the bucket starting 10:20 with mean speed 15. -/
theorem history_bucket_contents_witness :
    ((⟨⟨2017, 9, 5, 10, 20, 0⟩, some 15⟩ : HistPoint) ∈
        (get_sensor_historical_data exHistoryStore "S" 24).readings) ∧
    ((∃ k ∈ bucketKeysOf exHistoryStore "S",
        (⟨⟨2017, 9, 5, 10, 20, 0⟩, some 15⟩ : HistPoint).timestamp = bucketStart k ∧
        (⟨⟨2017, 9, 5, 10, 20, 0⟩, some 15⟩ : HistPoint).speed =
          some (round2 (bucketMean (bucketDocs exHistoryStore "S" k)))) ∧
      (∀ t : DT, (bucketKey t).minute_interval = t.minute / 10 * 10) ∧
      (∀ d ∈ matchedDocs exHistoryStore "S", ∃ q, d.speed = DocField.val q)) := by
  have hd : bucketDocs exHistoryStore "S" ⟨2017, 9, 5, 10, 20⟩ = exHistoryStore := by
    decide
  have h15 : round2 (bucketMean (bucketDocs exHistoryStore "S" ⟨2017, 9, 5, 10, 20⟩)) = 15 := by
    rw [hd]
    norm_num [bucketMean, speedOf, exHistoryStore, round2, roundHalfEven, ratFloor]
  have hr : (get_sensor_historical_data exHistoryStore "S" 24).readings =
      [⟨⟨2017, 9, 5, 10, 20, 0⟩,
        some (round2 (bucketMean (bucketDocs exHistoryStore "S" ⟨2017, 9, 5, 10, 20⟩)))⟩] := rfl
  have hp : (⟨⟨2017, 9, 5, 10, 20, 0⟩, some 15⟩ : HistPoint) ∈
      (get_sensor_historical_data exHistoryStore "S" 24).readings := by
    rw [hr, h15]
    exact List.mem_singleton.2 rfl
  exact ⟨hp, history_bucket_contents exHistoryStore "S" 24 _ hp⟩

/-- C7 counterexample: a decoded route of 25 points yields 13 sample points
(stride 25 // 10 = 2 over range(0, 25, 2)), exceeding the claimed bound of at
most ~10. -/
theorem sample_points_exceed_ten :
    (samplePoints pts25).length = 13 ∧ ¬ (samplePoints pts25).length ≤ 10 := by
  constructor
  · decide
  · decide

/-- C7 amended: for routes longer than 10 points the sampler strides at
`count / 10` intervals — selecting every strided point, hence between 10 and
19 sample points (not at most ~10) — and the last original point is always
among the samples; routes of at most 10 points are used whole. -/
theorem samplePoints_stride_and_last (pts : List (ℚ × ℚ)) (h : 10 < pts.length) :
    (samplePoints pts).length ≤ 19 ∧
    (∀ qs : List (ℚ × ℚ), qs.length ≤ 10 → samplePoints qs = qs) ∧
    (∀ j, j * (pts.length / 10) < pts.length →
        ∃ x, pts.get? (j * (pts.length / 10)) = some x ∧ x ∈ samplePoints pts) ∧
    (∃ x, pts.getLast? = some x ∧ x ∈ samplePoints pts) := by
  have hstep : 0 < pts.length / 10 := by omega
  have hsp : samplePoints pts =
      if (pts.length - 1) % (pts.length / 10) = 0 then
        (List.range' 0 ((pts.length + pts.length / 10 - 1) / (pts.length / 10))
          (pts.length / 10)).filterMap (fun i => pts.get? i)
      else
        ((List.range' 0 ((pts.length + pts.length / 10 - 1) / (pts.length / 10))
          (pts.length / 10)).filterMap (fun i => pts.get? i)) ++ pts.getLast?.toList := by
    rw [samplePoints, if_neg (by omega)]
  have hmemA : ∀ j, j * (pts.length / 10) < pts.length →
      ∃ x, pts.get? (j * (pts.length / 10)) = some x ∧
        x ∈ (List.range' 0 ((pts.length + pts.length / 10 - 1) / (pts.length / 10))
          (pts.length / 10)).filterMap (fun i => pts.get? i) := by
    intro j hj
    have hx := List.get?_eq_get hj
    refine ⟨_, hx, List.mem_filterMap.2 ⟨j * (pts.length / 10), ?_, hx⟩⟩
    have hcnt : (pts.length + pts.length / 10 - 1) / (pts.length / 10) =
        (pts.length - 1) / (pts.length / 10) + 1 := by
      rw [show pts.length + pts.length / 10 - 1 = (pts.length - 1) + pts.length / 10 by omega,
        Nat.add_div_right _ hstep]
    have hjle : j ≤ (pts.length - 1) / (pts.length / 10) :=
      (Nat.le_div_iff_mul_le hstep).2 (Nat.le_pred_of_lt hj)
    exact List.mem_range'.2 ⟨j, by omega, by rw [Nat.zero_add, Nat.mul_comm]⟩
  have hlast : ∃ x, pts.getLast? = some x ∧ x ∈ samplePoints pts := by
    by_cases hmod : (pts.length - 1) % (pts.length / 10) = 0
    · have hdvd := Nat.dvd_of_mod_eq_zero hmod
      have hjs : ((pts.length - 1) / (pts.length / 10)) * (pts.length / 10) = pts.length - 1 :=
        Nat.div_mul_cancel hdvd
      have hlt : ((pts.length - 1) / (pts.length / 10)) * (pts.length / 10) < pts.length := by
        rw [hjs]
        omega
      obtain ⟨x, hx, hxA⟩ := hmemA _ hlt
      rw [hjs] at hx
      refine ⟨x, ?_, ?_⟩
      · rw [List.getLast?_eq_get?]
        exact hx
      · rw [hsp, if_pos hmod]
        exact hxA
    · have hne : pts ≠ [] := by
        intro e
        rw [e] at h
        simp at h
      refine ⟨pts.getLast hne, List.getLast?_eq_getLast_of_ne_nil hne, ?_⟩
      rw [hsp, if_neg hmod]
      refine List.mem_append_right _ ?_
      simp [List.getLast?_eq_getLast_of_ne_nil hne]
  refine ⟨?_, ?_, ?_, hlast⟩
  · have hAle : ((List.range' 0 ((pts.length + pts.length / 10 - 1) / (pts.length / 10))
        (pts.length / 10)).filterMap (fun i => pts.get? i)).length ≤
        (pts.length + pts.length / 10 - 1) / (pts.length / 10) := by
      refine le_trans (List.length_filterMap_le _ _) ?_
      rw [List.length_range']
    rw [hsp]
    by_cases hmod : (pts.length - 1) % (pts.length / 10) = 0
    · rw [if_pos hmod]
      have h20 : pts.length + pts.length / 10 - 1 < 20 * (pts.length / 10) := by omega
      have hlt20 := (Nat.div_lt_iff_lt_mul hstep).2 h20
      omega
    · rw [if_neg hmod, List.length_append]
      have hq2 : 2 ≤ pts.length / 10 := by
        rcases Nat.lt_or_ge (pts.length / 10) 2 with hq | hq
        · exfalso
          have hq1 : pts.length / 10 = 1 := by omega
          rw [hq1, Nat.mod_one] at hmod
          exact hmod rfl
        · exact hq
      have h19 : pts.length + pts.length / 10 - 1 < 19 * (pts.length / 10) := by omega
      have hlt19 := (Nat.div_lt_iff_lt_mul hstep).2 h19
      have htl : pts.getLast?.toList.length ≤ 1 := by
        rcases pts.getLast? with _ | x
        · simp
        · simp
      omega
  · intro qs hqs
    rw [samplePoints, if_pos hqs]
  · intro j hj
    obtain ⟨x, hx, hxA⟩ := hmemA j hj
    refine ⟨x, hx, ?_⟩
    rw [hsp]
    by_cases hmod : (pts.length - 1) % (pts.length / 10) = 0
    · rw [if_pos hmod]
      exact hxA
    · rw [if_neg hmod]
      exact List.mem_append_left _ hxA

/-- Witness for the amended C7 at the 25-point route. -/
theorem samplePoints_stride_and_last_witness :
    10 < pts25.length ∧
    ((samplePoints pts25).length ≤ 19 ∧
      (∀ qs : List (ℚ × ℚ), qs.length ≤ 10 → samplePoints qs = qs) ∧
      (∀ j, j * (pts25.length / 10) < pts25.length →
          ∃ x, pts25.get? (j * (pts25.length / 10)) = some x ∧ x ∈ samplePoints pts25) ∧
      (∃ x, pts25.getLast? = some x ∧ x ∈ samplePoints pts25)) :=
  ⟨by decide, samplePoints_stride_and_last pts25 (by decide)⟩

/-- The ratio loop keeps its counter equal to the length of the accumulated
ratio list, which is the number of qualifying latest readings. -/
theorem collectRatios_count_eq : ∀ l : List Doc,
    (collectRatios l).2 = (collectRatios l).1.length ∧
    (collectRatios l).1.length = (l.filter qualifies).length := by
  intro l
  induction l with
  | nil => exact ⟨rfl, rfl⟩
  | cons d rest ih =>
    rcases hs : d.speed.cell with _ | sp
    · have hq : qualifies d = false := by
        rw [qualifies, hs]
      rw [collectRatios, hs, List.filter_cons, hq]
      simpa using ih
    · rcases hl : d.speed_limit.cell with _ | lim
      · have hq : qualifies d = false := by
          rw [qualifies, hs, hl]
        rw [collectRatios, hs, hl, List.filter_cons, hq]
        simpa using ih
      · by_cases hpos : 0 < lim
        · have hq : qualifies d = true := by
            rw [qualifies, hs, hl]
            simpa using hpos
          rw [collectRatios, hs, hl, List.filter_cons, hq]
          simp only [if_pos hpos, List.length_cons]
          refine ⟨by rw [ih.1], ?_⟩
          rw [ih.2]
          simp
        · have hq : qualifies d = false := by
            rw [qualifies, hs, hl]
            simpa using hpos
          rw [collectRatios, hs, hl, List.filter_cons, hq]
          simp only [if_neg hpos]
          simpa using ih

/-- Documents emitted by the latest-wins grouping come from the input and
carry keys not yet seen. -/
theorem mem_dedupByDetidAux {d : Doc} : ∀ {l : List Doc} {seen : List (Option String)},
    d ∈ dedupByDetidAux l seen → d ∈ l ∧ d.detid ∉ seen := by
  intro l
  induction l with
  | nil =>
    intro seen hmem
    rw [dedupByDetidAux] at hmem
    simp at hmem
  | cons a rest ih =>
    intro seen hmem
    rw [dedupByDetidAux] at hmem
    by_cases ha : a.detid ∈ seen
    · rw [if_pos ha] at hmem
      obtain ⟨h1, h2⟩ := ih hmem
      exact ⟨List.mem_cons_of_mem _ h1, h2⟩
    · rw [if_neg ha] at hmem
      rcases List.mem_cons.1 hmem with rfl | hmem'
      · exact ⟨List.mem_cons_self _ _, ha⟩
      · obtain ⟨h1, h2⟩ := ih hmem'
        exact ⟨List.mem_cons_of_mem _ h1,
          fun hc => h2 (List.mem_cons_of_mem _ hc)⟩

/-- The latest-wins grouping never emits the same detid twice. -/
theorem nodup_dedupByDetidAux : ∀ (l : List Doc) (seen : List (Option String)),
    ((dedupByDetidAux l seen).map (fun d => d.detid)).Nodup := by
  intro l
  induction l with
  | nil =>
    intro seen
    rw [dedupByDetidAux]
    simp
  | cons a rest ih =>
    intro seen
    rw [dedupByDetidAux]
    by_cases ha : a.detid ∈ seen
    · rw [if_pos ha]
      exact ih seen
    · rw [if_neg ha]
      simp only [List.map_cons, List.nodup_cons]
      refine ⟨?_, ih _⟩
      intro hc
      obtain ⟨d, hd, hdd⟩ := List.mem_map.1 hc
      exact (mem_dedupByDetidAux hd).2 (hdd ▸ List.mem_cons_self _ _)

/-- At most one latest document is fetched per unique nearby detid. -/
theorem latestPerDetid_length_le (store : List Doc) (detids : List String)
    (hnd : detids.Nodup) :
    (latestPerDetid (routeMatchedDocs store detids)).length ≤ detids.length := by
  have hnodup : ((latestPerDetid (routeMatchedDocs store detids)).map
      (fun d => d.detid)).Nodup := nodup_dedupByDetidAux _ _
  have hsub : ((latestPerDetid (routeMatchedDocs store detids)).map
      (fun d => d.detid)) ⊆ detids.map some := by
    intro k hk
    obtain ⟨d, hd, rfl⟩ := List.mem_map.1 hk
    have hdin : d ∈ List.insertionSort docTsGe (routeMatchedDocs store detids) :=
      (mem_dedupByDetidAux hd).1
    have hdm : d ∈ routeMatchedDocs store detids := by
      simpa using hdin
    have hpred := (List.mem_filter.1 hdm).2
    rcases hdd : d.detid with _ | s
    · rw [hdd] at hpred
      simp at hpred
    · rw [hdd] at hpred
      simp only [decide_eq_true_eq] at hpred
      exact List.mem_map.2 ⟨s, hpred, rfl⟩
  have hle := (List.Nodup.subperm hnodup hsub).length_le
  rw [List.length_map, List.length_map] at hle
  exact hle

/-- Count consistency of the final stage of the route handler. -/
theorem routeFinish_counts (detids : List String) (final : List Doc)
    (sample : List (ℚ × ℚ)) (resp : RouteTrafficAnalysisResponse)
    (hlen : final.length ≤ detids.length)
    (h : (routeFinish detids final sample).result = Except.ok resp) :
    resp.sensors_with_data ≤ resp.sensors_considered ∧
    resp.sensors_with_data = (routeFinish detids final sample).ratios.length ∧
    (routeFinish detids final sample).ratios.length =
      ((routeFinish detids final sample).latestDocs.filter qualifies).length := by
  have hcc := collectRatios_count_eq final
  have hfl : (final.filter qualifies).length ≤ final.length := List.length_filter_le _ _
  by_cases hrat : (collectRatios final).1.isEmpty = true
  · rw [routeFinish, if_pos hrat] at h ⊢
    cases h
    refine ⟨Nat.zero_le _, ?_, ?_⟩
    · rw [List.isEmpty_iff] at hrat
      simp [hrat]
    · show (collectRatios final).1.length = (final.filter qualifies).length
      exact hcc.2
  · rw [routeFinish, if_neg hrat] at h ⊢
    cases h
    refine ⟨?_, ?_, ?_⟩
    · show (collectRatios final).2 ≤ detids.length
      omega
    · show (collectRatios final).2 = (collectRatios final).1.length
      exact hcc.1
    · show (collectRatios final).1.length = (final.filter qualifies).length
      exact hcc.2

/-- C10: whenever the route-analysis handler returns a response,
`sensors_with_data` never exceeds `sensors_considered`, and it equals the
number of congestion ratios accumulated into the mean — one per latest
reading with a numeric speed and a positive speed limit. -/
theorem route_counts_consistent (geoNear : ℚ × ℚ → List Doc) (store : List Doc)
    (decoded : List (ℚ × ℚ)) (resp : RouteTrafficAnalysisResponse)
    (h : (get_route_traffic_analysis geoNear store decoded).result = Except.ok resp) :
    resp.sensors_with_data ≤ resp.sensors_considered ∧
    resp.sensors_with_data = (get_route_traffic_analysis geoNear store decoded).ratios.length ∧
    (get_route_traffic_analysis geoNear store decoded).ratios.length =
      ((get_route_traffic_analysis geoNear store decoded).latestDocs.filter qualifies).length := by
  by_cases hdec : decoded.isEmpty = true
  · rw [get_route_traffic_analysis, if_pos hdec] at h
    cases h
  · rw [get_route_traffic_analysis, if_neg hdec] at h ⊢
    rw [routeAnalyze] at h ⊢
    by_cases hdet : (routeDetids geoNear
        (samplePoints (decoded.map fun p => (p.2, p.1)))).isEmpty = true
    · rw [if_pos hdet] at h ⊢
      cases h
      exact ⟨Nat.le_refl 0, rfl, rfl⟩
    · rw [if_neg hdet] at h ⊢
      have hlen := latestPerDetid_length_le store
        (routeDetids geoNear (samplePoints (decoded.map fun p => (p.2, p.1))))
        (List.nodup_dedup _)
      exact routeFinish_counts _ _ _ resp hlen h

/-- Witness for C10: one route point near a single sensor at half its speed
limit; the handler returns "Moderate" with one considered and one
contributing sensor. -/
theorem route_counts_consistent_witness :
    ((get_route_traffic_analysis exGeoNear exRouteStore [(1, 2)]).result =
      Except.ok ⟨"Moderate",
        some (round3 (List.sum [(30 : ℚ) / 60] / (List.length [(30 : ℚ) / 60] : ℚ))), 1, 1⟩) ∧
    ((1 : ℕ) ≤ 1 ∧
     (1 : ℕ) = (get_route_traffic_analysis exGeoNear exRouteStore [(1, 2)]).ratios.length ∧
     (get_route_traffic_analysis exGeoNear exRouteStore [(1, 2)]).ratios.length =
      ((get_route_traffic_analysis exGeoNear exRouteStore [(1, 2)]).latestDocs.filter
        qualifies).length) := by
  have hcond : ¬ ((8 : ℚ) / 10 ≤
      List.sum [(30 : ℚ) / 60] / (List.length [(30 : ℚ) / 60] : ℚ)) := by
    simp
    norm_num
  have hcond2 : (5 : ℚ) / 10 ≤
      List.sum [(30 : ℚ) / 60] / (List.length [(30 : ℚ) / 60] : ℚ) := by
    simp
    norm_num
  have hres : (get_route_traffic_analysis exGeoNear exRouteStore [(1, 2)]).result =
      Except.ok ⟨"Moderate",
        some (round3 (List.sum [(30 : ℚ) / 60] / (List.length [(30 : ℚ) / 60] : ℚ))), 1, 1⟩ := by
    rw [show (get_route_traffic_analysis exGeoNear exRouteStore [(1, 2)]).result =
        Except.ok (summarize_congestion 1 [(30 : ℚ) / 60] 1) from rfl]
    rw [summarize_congestion]
    rw [if_neg hcond, if_pos hcond2]
  exact ⟨hres, route_counts_consistent exGeoNear exRouteStore [(1, 2)] _ hres⟩
